import Mathlib

/-!
Shallow embedding of the PrepTab exam-annotation tool (src/ui.py and the
SQLAlchemy models in src/exam.py, src/question.py).

Multilingual text fields are mappings from the fixed language-code set
{en, ha, ig, yo} to strings; option fields map the four answer letters
A-D to strings.  Python truthiness on the relevant values is embedded
explicitly (`""` and `None` are falsy for strings, `0` and `None` for
integers, `[]` for lists, a non-empty dict is truthy).
-/

namespace PrepTab

/-- A multilingual text mapping `{'en': ..., 'ha': ..., 'ig': ..., 'yo': ...}`. -/
structure LangMap where
  en : String
  ha : String
  ig : String
  yo : String
deriving DecidableEq, Repr

/-- The options mapping `{'A': ..., 'B': ..., 'C': ..., 'D': ...}`. -/
structure OptionsMap where
  A : String
  B : String
  C : String
  D : String
deriving DecidableEq, Repr

/-- One question record as composed in the form (ui.py session-state
`current_question` / entries of `questions`). -/
structure QuestionData where
  question : LangMap
  options : OptionsMap
  answer : String
  explanation : LangMap
  verbose : LangMap
deriving DecidableEq, Repr

/-- The exam header dict (ui.py session-state `exam_data`).  `exam_type`
is `None` or a string; `year` is `None` or an integer. -/
structure ExamData where
  exam_type : Option String
  subject : String
  year : Option Int
  title : String
  duration : Int
deriving DecidableEq, Repr

/-- The empty question template (ui.py `reset_current_question`,
lines 227-235, identical to the initial value at lines 217-224). -/
def empty_question : QuestionData :=
  { question := ⟨"", "", "", ""⟩
  , options := ⟨"", "", "", ""⟩
  , answer := "A"
  , explanation := ⟨"", "", "", ""⟩
  , verbose := ⟨"", "", "", ""⟩ }

/-- Python `str.strip()`: drop leading and trailing whitespace. -/
def py_strip (s : String) : String :=
  ⟨((s.data.dropWhile Char.isWhitespace).reverse.dropWhile Char.isWhitespace).reverse⟩

/-- ui.py `validate_question` (lines 237-258): collects one error string
per violated rule, in source order; the loop over `['A','B','C','D']` is
unrolled.  Python `not s.strip()` is `py_strip s = ""`; Python
`not question_data['answer']` on a string is `answer = ""`. -/
def validate_question (q : QuestionData) : List String :=
  (if py_strip q.question.en = "" then ["Question text in English is required"] else [])
  ++ (if py_strip q.options.A = "" then ["Option A is required"] else [])
  ++ (if py_strip q.options.B = "" then ["Option B is required"] else [])
  ++ (if py_strip q.options.C = "" then ["Option C is required"] else [])
  ++ (if py_strip q.options.D = "" then ["Option D is required"] else [])
  ++ (if q.answer = "" then ["Correct answer must be selected"] else [])
  ++ (if py_strip q.explanation.en = "" then ["Explanation in English is required"] else [])

/-- A concrete record whose only violations are a blank English question
text and a blank Option C (used by the validation claims). -/
def two_error_record : QuestionData :=
  { question := ⟨"  ", "", "", ""⟩
  , options := ⟨"4", "5", " ", "7"⟩
  , answer := "B"
  , explanation := ⟨"because", "", "", ""⟩
  , verbose := ⟨"", "", "", ""⟩ }

/-- C3: `validate_question` is a pure function that reports every violated
rule (its length is the number of violated rules), returns `[]` exactly when
all four rules hold, and on a record whose only violations are missing
English question text and missing Option C it returns exactly two error
descriptors. -/
theorem validate_question_complete (q : QuestionData) :
    (validate_question q = [] ↔
      (py_strip q.question.en ≠ "" ∧ py_strip q.options.A ≠ "" ∧ py_strip q.options.B ≠ "" ∧
       py_strip q.options.C ≠ "" ∧ py_strip q.options.D ≠ "" ∧ q.answer ≠ "" ∧
       py_strip q.explanation.en ≠ ""))
    ∧ (validate_question q).length =
        ((if py_strip q.question.en = "" then 1 else 0) +
         (if py_strip q.options.A = "" then 1 else 0) +
         (if py_strip q.options.B = "" then 1 else 0) +
         (if py_strip q.options.C = "" then 1 else 0) +
         (if py_strip q.options.D = "" then 1 else 0) +
         (if q.answer = "" then 1 else 0) +
         (if py_strip q.explanation.en = "" then 1 else 0))
    ∧ validate_question two_error_record =
        ["Question text in English is required", "Option C is required"] := by
  refine ⟨?_, ?_, ?_⟩
  · unfold validate_question
    split_ifs <;> simp_all
  · unfold validate_question
    split_ifs <;> simp_all
  · decide

/-- Witness for the C3 theorem at the concrete two-violation record. -/
theorem validate_question_complete_witness :
    validate_question two_error_record =
      ["Question text in English is required", "Option C is required"] :=
  (validate_question_complete two_error_record).2.2

/-- Python truthiness of `exam_data.get('exam_type', '')` (a `None`-able
string): `None` and `""` are falsy. -/
def py_truthy_str? : Option String → Bool
  | none => false
  | some s => !(s = "")

/-- Python truthiness of `exam_data.get('year', '')` (a `None`-able
integer): `None` and `0` are falsy. -/
def py_truthy_int? : Option Int → Bool
  | none => false
  | some y => !(y = 0)

/-- ui.py `generate_exam_title` (lines 112-120): when exam type, subject
and year are all truthy, the title is the f-string
`"{exam_type} {subject} {year}"`; otherwise `""`. -/
def generate_exam_title (ed : ExamData) : String :=
  if py_truthy_str? ed.exam_type && !(ed.subject = "") && py_truthy_int? ed.year then
    match ed.exam_type, ed.year with
    | some et, some y => et ++ " " ++ ed.subject ++ " " ++ toString y
    | _, _ => ""
  else ""

/-- ui.py `update_exam_title` (lines 122-124). -/
def update_exam_title (ed : ExamData) : ExamData :=
  { ed with title := generate_exam_title ed }

/-- C6: with category, subject and year all set, the derived exam title is
their formatted join; changing any one of them and re-deriving yields the
join with only that component changed; with any of the three unset the
derived title is `""`. -/
theorem generate_exam_title_join (ed : ExamData) (et : String) (y : Int)
    (het : ed.exam_type = some et) (hy : ed.year = some y)
    (het' : et ≠ "") (hs : ed.subject ≠ "") (hy' : y ≠ 0) :
    generate_exam_title ed = et ++ " " ++ ed.subject ++ " " ++ toString y
    ∧ (∀ et₂ : String, et₂ ≠ "" →
        generate_exam_title { ed with exam_type := some et₂ } =
          et₂ ++ " " ++ ed.subject ++ " " ++ toString y)
    ∧ (∀ s₂ : String, s₂ ≠ "" →
        generate_exam_title { ed with subject := s₂ } =
          et ++ " " ++ s₂ ++ " " ++ toString y)
    ∧ (∀ y₂ : Int, y₂ ≠ 0 →
        generate_exam_title { ed with year := some y₂ } =
          et ++ " " ++ ed.subject ++ " " ++ toString y₂)
    ∧ (∀ ed₂ : ExamData,
        ¬(py_truthy_str? ed₂.exam_type = true ∧ ed₂.subject ≠ "" ∧
          py_truthy_int? ed₂.year = true) →
        generate_exam_title ed₂ = "") := by
  refine ⟨?_, ?_, ?_, ?_, ?_⟩
  · simp [generate_exam_title, py_truthy_str?, py_truthy_int?, het, hy, het', hs, hy']
  · intro et₂ h₂
    simp [generate_exam_title, py_truthy_str?, py_truthy_int?, hy, h₂, hs, hy']
  · intro s₂ h₂
    simp [generate_exam_title, py_truthy_str?, py_truthy_int?, het, hy, het', h₂, hy']
  · intro y₂ h₂
    simp [generate_exam_title, py_truthy_str?, py_truthy_int?, het, het', hs, h₂]
  · intro ed₂ h₂
    unfold generate_exam_title
    by_cases h1 : py_truthy_str? ed₂.exam_type = true
    · by_cases h2 : ed₂.subject = ""
      · simp [h2]
      · by_cases h3 : py_truthy_int? ed₂.year = true
        · exact absurd ⟨h1, h2, h3⟩ h₂
        · simp only [Bool.not_eq_true] at h3
          simp [h3]
    · simp only [Bool.not_eq_true] at h1
      simp [h1]

/-- Witness for the C6 theorem at a concrete complete header. -/
theorem generate_exam_title_join_witness :
    generate_exam_title
        { exam_type := some "WAEC", subject := "Mathematics", year := some 2024,
          title := "", duration := 60 } =
      "WAEC" ++ " " ++ "Mathematics" ++ " " ++ toString (2024 : Int) :=
  (generate_exam_title_join
      { exam_type := some "WAEC", subject := "Mathematics", year := some 2024,
        title := "", duration := 60 }
      "WAEC" 2024 rfl rfl (by decide) (by decide) (by decide)).1

/-- The in-memory draft: session-state `exam_data`, `questions` (the staged
list) and `current_question` (the scratch record being composed). -/
structure DraftState where
  exam_data : ExamData
  questions : List QuestionData
  current_question : QuestionData
deriving DecidableEq, Repr

/-- The `question_copy` dict built in ui.py lines 580-586: a fresh record
with `.copy()` of each sub-mapping and the answer string (value-for-value
equal to the source record). -/
def copy_question (q : QuestionData) : QuestionData :=
  { question := q.question
  , options := q.options
  , answer := q.answer
  , explanation := q.explanation
  , verbose := q.verbose }

/-- ui.py "Add Question" handler (lines 571-591): validate the scratch
record; on errors report them and change nothing; otherwise append
`question_copy` to `questions` and reset `current_question` to the empty
template.  The returned list is the reported errors. -/
def stage_question (s : DraftState) : DraftState × List String :=
  let errors := validate_question s.current_question
  if errors = [] then
    ({ s with questions := s.questions ++ [copy_question s.current_question]
            , current_question := empty_question }, [])
  else (s, errors)

/-- C7: staging a scratch record that passes validation appends a copy of
it at the end of `staged_questions` (length grows by one and every earlier
entry is unchanged) and resets `scratch_question` to the empty template. -/
theorem stage_question_appends_and_resets (s : DraftState)
    (h : validate_question s.current_question = []) :
    (stage_question s).1.questions = s.questions ++ [s.current_question]
    ∧ (stage_question s).1.questions.length = s.questions.length + 1
    ∧ (∀ i, i < s.questions.length →
        (stage_question s).1.questions.get? i = s.questions.get? i)
    ∧ (stage_question s).1.current_question = empty_question
    ∧ (stage_question s).1.exam_data = s.exam_data := by
  have hcopy : copy_question s.current_question = s.current_question := rfl
  refine ⟨?_, ?_, ?_, ?_, ?_⟩
  · simp [stage_question, h, hcopy]
  · simp [stage_question, h, hcopy]
  · intro i hi
    have hap : (s.questions ++ [s.current_question]).get? i = s.questions.get? i := by
      simp only [List.get?_eq_getElem?]
      exact List.getElem?_append_left hi
    simpa [stage_question, h, hcopy] using hap
  · simp [stage_question, h, hcopy]
  · simp [stage_question, h, hcopy]

/-- Witness for the C7 theorem on a concrete valid scratch record. -/
theorem stage_question_appends_and_resets_witness :
    (stage_question
        { exam_data := { exam_type := some "JAMB", subject := "Physics",
                         year := some 2020, title := "JAMB Physics 2020", duration := 60 }
        , questions := []
        , current_question :=
            { question := ⟨"What is 2+2?", "", "", ""⟩
            , options := ⟨"1", "2", "3", "4"⟩
            , answer := "D"
            , explanation := ⟨"Basic arithmetic", "", "", ""⟩
            , verbose := ⟨"", "", "", ""⟩ } }).1.current_question = empty_question :=
  (stage_question_appends_and_resets _ (by decide)).2.2.2.1

/-- Python `list.pop(i)` for a non-negative index `i` (ui.py line 780
`st.session_state.questions.pop(i)`): removes and returns the element at
`i`; `none` models the `IndexError` raised when `i` is out of range (the
list is left unchanged in that case, since `pop` mutates only on
success). -/
def list_pop : List QuestionData → Nat → Option (QuestionData × List QuestionData)
  | [], _ => none
  | q :: rest, 0 => some (q, rest)
  | q :: rest, i + 1 =>
    match list_pop rest i with
    | some (x, rest') => some (x, q :: rest')
    | none => none

/-- The unstage operation of the spec: delete the staged question at
`index` via `list.pop`; an out-of-range index signals the IndexOutOfRange
condition (`Except.error`) and the draft is not changed. -/
def unstage_question (s : DraftState) (i : Nat) : Except String DraftState :=
  match list_pop s.questions i with
  | some (_, qs') => Except.ok { s with questions := qs' }
  | none => Except.error "IndexOutOfRange"

theorem list_pop_none_iff (qs : List QuestionData) (i : Nat) :
    list_pop qs i = none ↔ qs.length ≤ i := by
  induction qs generalizing i with
  | nil => simp [list_pop]
  | cons q rest ih =>
    cases i with
    | zero => simp [list_pop]
    | succ j =>
      simp only [list_pop, List.length_cons, Nat.succ_le_succ_iff]
      rw [← ih j]
      cases h : list_pop rest j <;> simp [h]

theorem list_pop_some (qs : List QuestionData) (i : Nat) (h : i < qs.length) :
    list_pop qs i = some (qs.get ⟨i, h⟩, qs.take i ++ qs.drop (i + 1)) := by
  induction qs generalizing i with
  | nil => simp at h
  | cons q rest ih =>
    cases i with
    | zero => simp [list_pop]
    | succ j =>
      have hj : j < rest.length := Nat.lt_of_succ_lt_succ h
      simp [list_pop, ih j hj]

theorem list_pop_get? (qs : List QuestionData) (i : Nat) (x : QuestionData)
    (qs' : List QuestionData) (h : list_pop qs i = some (x, qs')) :
    (∀ j, j < i → qs'.get? j = qs.get? j)
    ∧ (∀ j, i ≤ j → qs'.get? j = qs.get? (j + 1)) := by
  induction qs generalizing i qs' with
  | nil => simp [list_pop] at h
  | cons q rest ih =>
    cases i with
    | zero =>
      simp only [list_pop, Option.some.injEq, Prod.mk.injEq] at h
      obtain ⟨-, rfl⟩ := h
      exact ⟨fun j hj => absurd hj (Nat.not_lt_zero j), fun j _ => by simp⟩
    | succ k =>
      simp only [list_pop] at h
      cases hr : list_pop rest k with
      | none => simp [hr] at h
      | some p =>
        obtain ⟨y, rest'⟩ := p
        rw [hr] at h
        simp only [Option.some.injEq, Prod.mk.injEq] at h
        obtain ⟨rfl, rfl⟩ := h
        obtain ⟨ih1, ih2⟩ := ih k rest' hr
        constructor
        · intro j hj
          cases j with
          | zero => simp
          | succ m => simpa using ih1 m (Nat.lt_of_succ_lt_succ hj)
        · intro j hij
          cases j with
          | zero => exact absurd hij (Nat.not_succ_le_zero k)
          | succ m => simpa using ih2 m (Nat.le_of_succ_le_succ hij)

/-- C8: out-of-range unstaging signals the out-of-range condition and the
staged list is unchanged; in-range unstaging removes exactly the entry at
the index, shifting later entries down by one. -/
theorem unstage_question_spec (s : DraftState) (i : Nat) :
    (s.questions.length ≤ i → unstage_question s i = Except.error "IndexOutOfRange")
    ∧ (∀ h : i < s.questions.length,
        unstage_question s i =
          Except.ok { s with questions := s.questions.take i ++ s.questions.drop (i + 1) }
        ∧ ∀ s' , unstage_question s i = Except.ok s' →
            s'.questions.length + 1 = s.questions.length
            ∧ (∀ j, j < i → s'.questions.get? j = s.questions.get? j)
            ∧ (∀ j, i ≤ j → s'.questions.get? j = s.questions.get? (j + 1))
            ∧ s'.exam_data = s.exam_data
            ∧ s'.current_question = s.current_question) := by
  constructor
  · intro h
    have := (list_pop_none_iff s.questions i).2 h
    simp [unstage_question, this]
  · intro h
    have hpop := list_pop_some s.questions i h
    constructor
    · simp [unstage_question, hpop]
    · intro s' hs'
      simp only [unstage_question, hpop] at hs'
      simp only [Except.ok.injEq] at hs'
      subst hs'
      have hget := list_pop_get? s.questions i _ _ hpop
      refine ⟨?_, hget.1, hget.2, rfl, rfl⟩
      simp only [List.length_append, List.length_take, List.length_drop]
      omega

/-- Witness for the C8 theorem: popping index 5 from a two-element staged
list is an out-of-range error. -/
theorem unstage_question_spec_witness :
    unstage_question
        { exam_data := { exam_type := none, subject := "", year := some 2025,
                         title := "", duration := 60 }
        , questions := [empty_question, empty_question]
        , current_question := empty_question } 5 =
      Except.error "IndexOutOfRange" :=
  (unstage_question_spec
      { exam_data := { exam_type := none, subject := "", year := some 2025,
                       title := "", duration := 60 }
      , questions := [empty_question, empty_question]
      , current_question := empty_question } 5).1 (by decide)

/-- ui.py "Duplicate Last Question" handler (lines 714-723): if the staged
list is non-empty, append `questions[-1].copy()` and report success
(`true`); on an empty list show a warning and leave the list unchanged
(`false`).  No exception is raised in either case. -/
def duplicate_last (qs : List QuestionData) : List QuestionData × Bool :=
  match qs with
  | [] => ([], false)
  | q :: rest => ((q :: rest) ++ [(q :: rest).getLast (List.cons_ne_nil q rest)], true)

/-- C9: duplicating the last staged question on a non-empty list appends a
copy of the final entry (length grows by one, the last two entries are
equal); on an empty list the list is unchanged and no error is raised. -/
theorem duplicate_last_spec (qs : List QuestionData) :
    (qs = [] → duplicate_last qs = ([], false))
    ∧ (qs ≠ [] →
        (∃ x, qs.getLast? = some x ∧ (duplicate_last qs).1 = qs ++ [x])
        ∧ (duplicate_last qs).1.length = qs.length + 1
        ∧ (duplicate_last qs).1.get? (qs.length - 1) =
            (duplicate_last qs).1.get? qs.length) := by
  constructor
  · rintro rfl
    rfl
  · intro hne
    obtain ⟨q, rest, rfl⟩ := List.exists_cons_of_ne_nil hne
    have hlast : (q :: rest).getLast? = some ((q :: rest).getLast (List.cons_ne_nil q rest)) :=
      List.getLast?_eq_getLast _ _
    refine ⟨⟨(q :: rest).getLast (List.cons_ne_nil q rest), hlast, rfl⟩, ?_, ?_⟩
    · simp [duplicate_last]
    · set l := q :: rest with hl
      have hlen : l.length - 1 < l.length := by simp [hl]
      have h1 : (duplicate_last l).1.get? (l.length - 1) = l.get? (l.length - 1) := by
        have : l.length - 1 < l.length := hlen
        simp only [duplicate_last]
        rw [List.get?_append (by simpa [hl] using this)]
      have h2 : (duplicate_last l).1.get? l.length = some (l.getLast (by simp [hl])) := by
        simp only [duplicate_last]
        rw [List.get?_append_right (by simp [hl])]
        simp [hl]
      rw [h1, h2]
      rw [List.getLast?_eq_get?] at hlast
      simpa [hl] using hlast

/-- Witness for the C9 theorem on a concrete singleton staged list. -/
theorem duplicate_last_spec_witness :
    (duplicate_last [two_error_record]).1.length = [two_error_record].length + 1 :=
  ((duplicate_last_spec [two_error_record]).2 (by decide)).2.1

/-- ui.py lines 544-547: the answer written into the scratch record from
the pills widget.  `if correct_answer:` keeps a truthy selection and
forces `'A'` otherwise (the widget yields `None` when nothing is
selected). -/
def answer_from_pills (sel : Option String) : String :=
  match sel with
  | some a => if a = "" then "A" else a
  | none => "A"

/-- C10 (implicit): the pills widget only yields one of its four options
or `None`, the fallback forces `'A'`, and the empty template also carries
`'A'`; hence every form-composed record has an answer in `{A,B,C,D}` and
the "Correct answer must be selected" branch of `validate_question` can
never fire on such a record. -/
theorem form_answer_always_selected (sel : Option String)
    (hsel : sel = none ∨ sel ∈ [some "A", some "B", some "C", some "D"]) :
    answer_from_pills sel ∈ (["A", "B", "C", "D"] : List String)
    ∧ empty_question.answer = "A"
    ∧ (∀ q : QuestionData, q.answer = answer_from_pills sel →
        "Correct answer must be selected" ∉ validate_question q) := by
  have hne : answer_from_pills sel ≠ "" := by
    rcases hsel with rfl | hmem
    · decide
    · simp only [List.mem_cons, List.not_mem_nil, or_false] at hmem
      rcases hmem with rfl | rfl | rfl | rfl <;> decide
  refine ⟨?_, rfl, ?_⟩
  · rcases hsel with rfl | hmem
    · decide
    · simp only [List.mem_cons, List.not_mem_nil, or_false] at hmem
      rcases hmem with rfl | rfl | rfl | rfl <;> decide
  · intro q hq
    have hqa : q.answer ≠ "" := hq ▸ hne
    unfold validate_question
    simp only [List.mem_append]
    push_neg
    refine ⟨⟨⟨⟨⟨⟨?_, ?_⟩, ?_⟩, ?_⟩, ?_⟩, ?_⟩, ?_⟩ <;>
      split_ifs <;> simp_all <;> decide

/-- Witness for the C10 theorem at the selection `some "B"`. -/
theorem form_answer_always_selected_witness :
    answer_from_pills (some "B") ∈ (["A", "B", "C", "D"] : List String) :=
  (form_answer_always_selected (some "B") (Or.inr (by decide))).1

/-- One value held under a localStorage key, classified by how the read
guards in ui.py treat the stored string: `absent` (`getItem` yields a
falsy non-string), `emptyStr` (empty or whitespace-only string, rejected
by the truthiness / `.strip()` guards), `nullLit` (the literal string
`"null"`), `malformed` (a string on which `json.loads` raises), and
`json v` (a string that `json.loads` decodes to exactly the value `v`;
`json.dumps` of a draft value always produces such a string, and
`json.loads (json.dumps v) = v`). -/
inductive StoreVal (α : Type) where
  | absent : StoreVal α
  | emptyStr : StoreVal α
  | nullLit : StoreVal α
  | malformed : StoreVal α
  | json : α → StoreVal α
deriving DecidableEq, Repr

/-- The two fixed localStorage keys (`preptab_exam_data` and
`preptab_questions`). -/
structure Store where
  exam_data_val : StoreVal ExamData
  questions_val : StoreVal (List QuestionData)
deriving DecidableEq, Repr

/-- A stored value that the read guards treat as "nothing stored": absent,
empty/whitespace, the literal `"null"`, or undecodable. -/
def not_stored : StoreVal α → Bool
  | StoreVal.json _ => false
  | _ => true

/-- The mirror write in ui.py `create_exam_page` (lines 352-376): refresh
the derived title via `update_exam_title()`, then `json.dumps` the exam
header and the staged question list into the two keys. -/
def mirror_to_external_store (s : DraftState) (store : Store) : DraftState × Store :=
  let ed := update_exam_title s.exam_data
  ({ s with exam_data := ed },
   { store with exam_data_val := StoreVal.json ed
              , questions_val := StoreVal.json s.questions })

/-- ui.py `load_exam_from_storage` (lines 144-185): for each key, when the
stored value passes the guards (truthy, a string, non-blank after strip,
not `"null"`) and decodes, the decoded value replaces the in-memory slot;
otherwise that slot is left untouched.  The returned flag is
`exam_data_loaded or questions_loaded`. -/
def load_exam_from_storage (s : DraftState) (store : Store) : DraftState × Bool :=
  let (ed, ed_loaded) :=
    match store.exam_data_val with
    | StoreVal.json e => (e, true)
    | _ => (s.exam_data, false)
  let (qs, qs_loaded) :=
    match store.questions_val with
    | StoreVal.json q => (q, true)
    | _ => (s.questions, false)
  ({ s with exam_data := ed, questions := qs }, ed_loaded || qs_loaded)

/-- The restore pass in ui.py `main` (lines 300-332): same read guards,
but a decoded value replaces the in-memory slot only when it is truthy
(a decoded exam header is a non-empty dict, hence always truthy; a decoded
question list is truthy iff non-empty) and differs from the current
value. -/
def main_restore (s : DraftState) (store : Store) : DraftState :=
  let ed :=
    match store.exam_data_val with
    | StoreVal.json e => if e ≠ s.exam_data then e else s.exam_data
    | _ => s.exam_data
  let qs :=
    match store.questions_val with
    | StoreVal.json q => if q ≠ [] ∧ q ≠ s.questions then q else s.questions
    | _ => s.questions
  { s with exam_data := ed, questions := qs }

/-- The draft reset after a successful database save (ui.py lines
620-629): header back to its defaults (the default year is environment
dependent, so it is a parameter), staged list emptied, scratch record back
to the template. -/
def clear_draft_state (default_year : Int) (s : DraftState) : DraftState :=
  { s with exam_data := { exam_type := none, subject := "", year := some default_year,
                          title := "", duration := 60 }
         , questions := []
         , current_question := empty_question }

set_option maxRecDepth 8000 in
/-- C4: serializing a draft to the external store, clearing the in-memory
state, and restoring from the store yields `exam_header` and
`staged_questions` equal to the originals, for every draft whose title
carries the derived-title invariant of the data model (ui.py recomputes
the title as part of the mirror write, so the invariant is what "no
intervening edit" preserves). -/
theorem draft_round_trip (s : DraftState) (store : Store) (default_year : Int)
    (hinv : s.exam_data.title = generate_exam_title s.exam_data) :
    ((load_exam_from_storage
        (clear_draft_state default_year (mirror_to_external_store s store).1)
        (mirror_to_external_store s store).2).1.exam_data = s.exam_data)
    ∧ ((load_exam_from_storage
        (clear_draft_state default_year (mirror_to_external_store s store).1)
        (mirror_to_external_store s store).2).1.questions = s.questions) := by
  have hupd : update_exam_title s.exam_data = s.exam_data := by
    unfold update_exam_title
    rw [← hinv]
  exact ⟨hupd, rfl⟩

/-- Witness for the C4 theorem on a concrete draft satisfying the title
invariant. -/
theorem draft_round_trip_witness :
    (load_exam_from_storage
        (clear_draft_state 2025
          (mirror_to_external_store
            { exam_data := { exam_type := some "WAEC", subject := "Biology",
                             year := some 2019, title := "WAEC Biology 2019", duration := 90 }
            , questions := [two_error_record]
            , current_question := empty_question }
            { exam_data_val := StoreVal.absent, questions_val := StoreVal.absent }).1)
        (mirror_to_external_store
            { exam_data := { exam_type := some "WAEC", subject := "Biology",
                             year := some 2019, title := "WAEC Biology 2019", duration := 90 }
            , questions := [two_error_record]
            , current_question := empty_question }
            { exam_data_val := StoreVal.absent, questions_val := StoreVal.absent }).2).1.questions =
      [two_error_record] :=
  (draft_round_trip
      { exam_data := { exam_type := some "WAEC", subject := "Biology",
                       year := some 2019, title := "WAEC Biology 2019", duration := 90 }
      , questions := [two_error_record]
      , current_question := empty_question }
      { exam_data_val := StoreVal.absent, questions_val := StoreVal.absent }
      2025 (by decide)).2

/-- C5: restoring from the external store replaces a slot only when the
decoded content differs from the current in-memory value; a key whose
stored value is absent, empty, the literal `"null"`, or undecodable leaves
the corresponding slot untouched, and when neither key decodes the whole
state is untouched and the outcome reported is "not restored"
(`false`). -/
theorem restore_guards (s : DraftState) (store : Store) :
    (not_stored store.exam_data_val = true →
      (load_exam_from_storage s store).1.exam_data = s.exam_data
      ∧ (main_restore s store).exam_data = s.exam_data)
    ∧ (not_stored store.questions_val = true →
      (load_exam_from_storage s store).1.questions = s.questions
      ∧ (main_restore s store).questions = s.questions)
    ∧ (not_stored store.exam_data_val = true → not_stored store.questions_val = true →
      load_exam_from_storage s store = (s, false) ∧ main_restore s store = s)
    ∧ ((main_restore s store).exam_data = s.exam_data ∨
        ∃ e, store.exam_data_val = StoreVal.json e ∧ e ≠ s.exam_data ∧
          (main_restore s store).exam_data = e)
    ∧ ((main_restore s store).questions = s.questions ∨
        ∃ q, store.questions_val = StoreVal.json q ∧ q ≠ s.questions ∧
          (main_restore s store).questions = q) := by
  obtain ⟨ev, qv⟩ := store
  refine ⟨?_, ?_, ?_, ?_, ?_⟩
  · intro he
    cases ev <;> simp_all [not_stored, load_exam_from_storage, main_restore]
  · intro hq
    cases qv <;> simp_all [not_stored, load_exam_from_storage, main_restore]
  · intro he hq
    cases ev <;> cases qv <;>
      simp_all [not_stored, load_exam_from_storage, main_restore]
  · cases ev with
    | json e =>
      by_cases hdiff : e = s.exam_data
      · left; simp [main_restore, hdiff]
      · right; exact ⟨e, rfl, hdiff, by simp [main_restore, hdiff]⟩
    | absent => left; simp [main_restore]
    | emptyStr => left; simp [main_restore]
    | nullLit => left; simp [main_restore]
    | malformed => left; simp [main_restore]
  · cases qv with
    | json q =>
      by_cases hq0 : q = []
      · left; simp [main_restore, hq0]
      · by_cases hdiff : q = s.questions
        · left; simp [main_restore, hdiff]
        · right; exact ⟨q, rfl, hdiff, by simp [main_restore, hq0, hdiff]⟩
    | absent => left; simp [main_restore]
    | emptyStr => left; simp [main_restore]
    | nullLit => left; simp [main_restore]
    | malformed => left; simp [main_restore]

/-- Witness for the C5 theorem: with `"null"` under one key and an
undecodable string under the other, nothing is restored. -/
theorem restore_guards_witness :
    load_exam_from_storage
        { exam_data := { exam_type := some "NECO", subject := "Chemistry",
                         year := some 2022, title := "NECO Chemistry 2022", duration := 120 }
        , questions := []
        , current_question := empty_question }
        { exam_data_val := StoreVal.nullLit, questions_val := StoreVal.malformed } =
      ({ exam_data := { exam_type := some "NECO", subject := "Chemistry",
                        year := some 2022, title := "NECO Chemistry 2022", duration := 120 }
       , questions := []
       , current_question := empty_question }, false) :=
  ((restore_guards
      { exam_data := { exam_type := some "NECO", subject := "Chemistry",
                       year := some 2022, title := "NECO Chemistry 2022", duration := 120 }
      , questions := []
      , current_question := empty_question }
      { exam_data_val := StoreVal.nullLit,
        questions_val := StoreVal.malformed }).2.2.1 (by decide) (by decide)).1

/-- A persisted row of the `exams` table (src/exam.py).  Identifiers are
modelled as naturals drawn from a per-database counter. -/
structure ExamRow where
  id : Nat
  exam_type : String
  subject : String
  year : Option Int
  title : String
  duration : Int
deriving DecidableEq, Repr

/-- A persisted row of the `questions` table (src/question.py). -/
structure QuestionRow where
  exam_id : Nat
  number : Nat
  question : LangMap
  options : OptionsMap
  answer : String
  explanation : LangMap
  verbose : LangMap
deriving DecidableEq, Repr

/-- The durable database state: the committed rows of the two tables and
the identifier generator. -/
structure DB where
  exams : List ExamRow
  questions : List QuestionRow
  next_id : Nat
deriving DecidableEq, Repr

/-- The database operations issued by `save_exam_to_database`: the exam
INSERT executed at `db.flush()`, the question INSERTs (1-based, executed
when the commit flushes the added rows), and the commit itself. -/
inductive DbOp where
  | insertExam : DbOp
  | insertQuestion : Nat → DbOp
  | commit : DbOp
deriving DecidableEq, Repr

/-- `ExamType(s)` from src/exam.py: valid only for the four enumeration
values; `ExamType` of anything else (including `None`) raises
`ValueError`. -/
def exam_type_valid (s : String) : Bool :=
  s = "WAEC" || s = "NECO" || s = "JAMB" || s = "PREPQUIZ"

/-- The Exam row constructed in ui.py lines 265-271. -/
def mk_exam_row (id : Nat) (et : String) (ed : ExamData) : ExamRow :=
  { id := id, exam_type := et, subject := ed.subject, year := ed.year,
    title := ed.title, duration := ed.duration }

/-- The Question row constructed in ui.py lines 278-286. -/
def mk_question_row (exam_id : Nat) (n : Nat) (q : QuestionData) : QuestionRow :=
  { exam_id := exam_id, number := n, question := q.question, options := q.options,
    answer := q.answer, explanation := q.explanation, verbose := q.verbose }

/-- The loop `for i, question_data in enumerate(questions, 1)` of ui.py
lines 277-287: question rows for the staged list, numbering from `n`. -/
def build_question_rows (exam_id : Nat) : Nat → List QuestionData → List QuestionRow
  | _, [] => []
  | n, q :: rest => mk_question_row exam_id n q :: build_question_rows exam_id (n + 1) rest

/-- Whether the failure oracle makes any of the question INSERTs
(numbered 1..n) fail. -/
def any_question_fails (fail : DbOp → Bool) (n : Nat) : Bool :=
  (List.range n).any fun i => fail (DbOp.insertQuestion (i + 1))

/-- ui.py `save_exam_to_database` (lines 260-294), with database failures
abstracted by the oracle `fail`.  The whole body runs inside
`async with AsyncSessionLocal() as db`: rows staged in the session become
durable only at a successful `commit()`, and any exception (an invalid
`ExamType`, a failing INSERT at flush or commit time, or a failing commit)
closes the session without committing, which rolls the transaction back;
the `except` clause then reports the error and returns `None`.  The
result is the durable database state paired with the returned
identifier. -/
def save_exam_to_database (fail : DbOp → Bool) (db : DB) (ed : ExamData)
    (qs : List QuestionData) : DB × Option String :=
  match ed.exam_type with
  | none => (db, none)
  | some et =>
    if exam_type_valid et then
      if fail DbOp.insertExam then (db, none)
      else if any_question_fails fail qs.length then (db, none)
      else if fail DbOp.commit then (db, none)
      else
        ({ exams := db.exams ++ [mk_exam_row db.next_id et ed]
         , questions := db.questions ++ build_question_rows db.next_id 1 qs
         , next_id := db.next_id + 1 }, some (toString db.next_id))
    else (db, none)

theorem any_question_fails_of_mem (fail : DbOp → Bool) (n i : Nat)
    (h1 : 1 ≤ i) (h2 : i ≤ n) (hf : fail (DbOp.insertQuestion i) = true) :
    any_question_fails fail n = true := by
  unfold any_question_fails
  rw [List.any_eq_true]
  exact ⟨i - 1, by rw [List.mem_range]; omega, by rwa [Nat.sub_add_cancel h1]⟩

/-- C1: the save is all-or-nothing.  Whenever the returned identifier is
`None`, the durable database is exactly the pre-save database (no Exam row
and no Question row persists); and if the exam INSERT, any question
INSERT, or the commit fails, the save returns the pre-save database and no
identifier. -/
theorem save_exam_all_or_nothing (fail : DbOp → Bool) (db : DB) (ed : ExamData)
    (qs : List QuestionData)
    (h : fail DbOp.insertExam = true
      ∨ (∃ i, 1 ≤ i ∧ i ≤ qs.length ∧ fail (DbOp.insertQuestion i) = true)
      ∨ fail DbOp.commit = true) :
    save_exam_to_database fail db ed qs = (db, none)
    ∧ ∀ db' r, save_exam_to_database fail db ed qs = (db', r) → r = none → db' = db := by
  have hmain : save_exam_to_database fail db ed qs = (db, none) := by
    unfold save_exam_to_database
    cases hty : ed.exam_type with
    | none => rfl
    | some et =>
      by_cases hv : exam_type_valid et = true
      · simp only [hv, if_true]
        by_cases h1 : fail DbOp.insertExam = true
        · simp [h1]
        · simp only [Bool.not_eq_true] at h1
          by_cases h2 : any_question_fails fail qs.length = true
          · simp [h1, h2]
          · simp only [Bool.not_eq_true] at h2
            by_cases h3 : fail DbOp.commit = true
            · simp [h1, h2, h3]
            · exfalso
              simp only [Bool.not_eq_true] at h3
              rcases h with hA | ⟨i, hi1, hi2, hif⟩ | hC
              · rw [h1] at hA; exact Bool.false_ne_true hA
              · have hall := any_question_fails_of_mem fail qs.length i hi1 hi2 hif
                rw [h2] at hall; exact Bool.false_ne_true hall
              · rw [h3] at hC; exact Bool.false_ne_true hC
      · simp only [Bool.not_eq_true] at hv
        simp [hv]
  refine ⟨hmain, ?_⟩
  intro db' r heq _
  rw [hmain] at heq
  exact (Prod.mk.injEq _ _ _ _ ▸ heq).1.symm ▸ rfl

/-- Witness for the C1 theorem: forcing the second question INSERT to fail
on a three-question save leaves the (empty) database unchanged and returns
no identifier. -/
theorem save_exam_all_or_nothing_witness :
    save_exam_to_database
        (fun op => op = DbOp.insertQuestion 2)
        { exams := [], questions := [], next_id := 0 }
        { exam_type := some "WAEC", subject := "Mathematics", year := some 2024,
          title := "WAEC Mathematics 2024", duration := 60 }
        [two_error_record, empty_question, two_error_record] =
      ({ exams := [], questions := [], next_id := 0 }, none) :=
  (save_exam_all_or_nothing
      (fun op => op = DbOp.insertQuestion 2)
      { exams := [], questions := [], next_id := 0 }
      { exam_type := some "WAEC", subject := "Mathematics", year := some 2024,
        title := "WAEC Mathematics 2024", duration := 60 }
      [two_error_record, empty_question, two_error_record]
      (Or.inr (Or.inl ⟨2, by decide, by decide, by decide⟩))).1

theorem build_question_rows_length (exam_id : Nat) (n : Nat) (qs : List QuestionData) :
    (build_question_rows exam_id n qs).length = qs.length := by
  induction qs generalizing n with
  | nil => rfl
  | cons q rest ih => simp [build_question_rows, ih]

theorem build_question_rows_get? (exam_id : Nat) (n : Nat) (qs : List QuestionData)
    (i : Nat) :
    (build_question_rows exam_id n qs).get? i =
      (qs.get? i).map (mk_question_row exam_id (n + i)) := by
  induction qs generalizing n i with
  | nil => simp [build_question_rows]
  | cons q rest ih =>
    cases i with
    | zero => simp [build_question_rows]
    | succ j =>
      simp only [build_question_rows, List.get?_cons_succ]
      rw [ih (n + 1) j]
      have : n + 1 + j = n + (j + 1) := by omega
      rw [this]

/-- C2: a save during which no database operation fails persists exactly
one new Exam row (with the header's fields and the fresh identifier) and
exactly `n` new Question rows, where the `i`-th staged question (1-based)
becomes the row numbered `i` referencing the new exam and carrying that
entry's question, options, answer, explanation and verbose fields; the
exam's identifier is returned. -/
theorem save_exam_success (fail : DbOp → Bool) (db : DB) (ed : ExamData)
    (et : String) (qs : List QuestionData)
    (hty : ed.exam_type = some et) (hv : exam_type_valid et = true)
    (hok : ∀ op, fail op = false) :
    (save_exam_to_database fail db ed qs).2 = some (toString db.next_id)
    ∧ (save_exam_to_database fail db ed qs).1.exams =
        db.exams ++ [mk_exam_row db.next_id et ed]
    ∧ (save_exam_to_database fail db ed qs).1.questions =
        db.questions ++ build_question_rows db.next_id 1 qs
    ∧ (save_exam_to_database fail db ed qs).1.exams.length = db.exams.length + 1
    ∧ (save_exam_to_database fail db ed qs).1.questions.length =
        db.questions.length + qs.length
    ∧ (∀ i, (build_question_rows db.next_id 1 qs).get? i =
        (qs.get? i).map (mk_question_row db.next_id (i + 1)))
    ∧ (save_exam_to_database fail db ed qs).1.next_id = db.next_id + 1 := by
  have hq : any_question_fails fail qs.length = false := by
    unfold any_question_fails
    rw [List.any_eq_false]
    intro i _
    simp [hok]
  have hsave : save_exam_to_database fail db ed qs =
      ({ exams := db.exams ++ [mk_exam_row db.next_id et ed]
       , questions := db.questions ++ build_question_rows db.next_id 1 qs
       , next_id := db.next_id + 1 }, some (toString db.next_id)) := by
    unfold save_exam_to_database
    rw [hty]
    simp [hv, hok DbOp.insertExam, hok DbOp.commit, hq]
  refine ⟨?_, ?_, ?_, ?_, ?_, ?_, ?_⟩
  · rw [hsave]
  · rw [hsave]
  · rw [hsave]
  · rw [hsave]; simp
  · rw [hsave]; simp [build_question_rows_length]
  · intro i
    rw [build_question_rows_get? db.next_id 1 qs i]
    have : 1 + i = i + 1 := by omega
    rw [this]
  · rw [hsave]

/-- Witness for the C2 theorem: a failure-free save of one header and two
staged questions returns the fresh identifier. -/
theorem save_exam_success_witness :
    (save_exam_to_database (fun _ => false)
        { exams := [], questions := [], next_id := 7 }
        { exam_type := some "JAMB", subject := "Physics", year := some 2021,
          title := "JAMB Physics 2021", duration := 45 }
        [two_error_record, empty_question]).2 = some (toString (7 : Nat)) :=
  (save_exam_success (fun _ => false)
      { exams := [], questions := [], next_id := 7 }
      { exam_type := some "JAMB", subject := "Physics", year := some 2021,
        title := "JAMB Physics 2021", duration := 45 }
      "JAMB" [two_error_record, empty_question] rfl (by decide)
      (fun _ => rfl)).1


end PrepTab
